import Mathlib

/-!
Shallow embedding of `arena.go` (cheezy-arena-lite): the arena state machine,
the alliance-station registry and the periodic update step, together with
theorems settling the specification claims about them.

Go `time.Time` instants and `float64` second counts are modelled as rationals
(`ℚ`); "now" is passed explicitly to every operation that reads the clock.
Go errors are modelled by the inductive `GoError`; a Go function returning
`error` returns `Option GoError` (`none` = nil).  External collaborators
(team store, connection factory, connection close) are modelled by an
explicit `Env` of oracles, and Go map iteration order (unspecified in Go) is
passed as an explicit `List StationId` where it matters.
-/

/-- Match timing constant `autoDurationSec = 10` from `arena.go`. -/
def autoDurationSec : ℚ := 10

/-- Match timing constant `pauseDurationSec = 1` from `arena.go`. -/
def pauseDurationSec : ℚ := 1

/-- Match timing constant `teleopDurationSec = 140` from `arena.go`. -/
def teleopDurationSec : ℚ := 140

/-- Match timing constant `endgameTimeLeftSec = 30` from `arena.go`. -/
def endgameTimeLeftSec : ℚ := 30

/-- Packet cadence constant `dsPacketPeriodMs = 250` from `arena.go`. -/
def dsPacketPeriodMs : ℚ := 250

/-- The progression of match states (`PRE_MATCH = iota`, ... in `arena.go`). -/
inductive MatchState where
  | PRE_MATCH
  | START_MATCH
  | AUTO_PERIOD
  | PAUSE_PERIOD
  | TELEOP_PERIOD
  | ENDGAME_PERIOD
  | POST_MATCH
deriving DecidableEq, Repr

/-- The six alliance-station keys ("R1".."B3"), the exact key set installed by
`Arena.Setup`. -/
inductive StationId where
  | R1
  | R2
  | R3
  | B1
  | B2
  | B3
deriving DecidableEq, Repr, Fintype

/-- The station keys in declaration order, used as the canonical iteration
order over the `AllianceStations` map. -/
def allStations : List StationId :=
  [StationId.R1, StationId.R2, StationId.R3, StationId.B1, StationId.B2, StationId.B3]

/-- The string key of a station, as used in the Go map. -/
def keyString : StationId → String
  | StationId.R1 => "R1"
  | StationId.R2 => "R2"
  | StationId.R3 => "R3"
  | StationId.B1 => "B1"
  | StationId.B2 => "B2"
  | StationId.B3 => "B3"

/-- Membership test of a string in the fixed six-key map
(`if _, ok := arena.AllianceStations[station]; !ok` in `AssignTeam`). -/
def stationOfString (s : String) : Option StationId :=
  if s = "R1" then some StationId.R1
  else if s = "R2" then some StationId.R2
  else if s = "R3" then some StationId.R3
  else if s = "B1" then some StationId.B1
  else if s = "B2" then some StationId.B2
  else if s = "B3" then some StationId.B3
  else none

/-- A team record; `arena.go` only reads the `Id` field (`team.Id`). -/
structure Team where
  Id : Int
deriving DecidableEq, Repr

/-- The driver-station status carried by a connection; `arena.go` only reads
`RobotLinked`. -/
structure DriverStationStatus where
  RobotLinked : Bool
deriving DecidableEq, Repr

/-- The fields of `DriverStationConnection` that `arena.go` reads or writes:
`TeamId`, `Auto`, `Enabled` and the link status. -/
structure DriverStationConnection where
  TeamId : Int
  Auto : Bool
  Enabled : Bool
  DriverStationStatus : DriverStationStatus
deriving DecidableEq, Repr

/-- One alliance-station slot: optional connection, the two safety flags and
the optional team, exactly the fields of Go `AllianceStation`. -/
structure AllianceStation where
  DsConn : Option DriverStationConnection
  EmergencyStop : Bool
  Bypass : Bool
  team : Option Team
deriving DecidableEq, Repr

/-- A match record: type tag, six team-number fields and a status, the fields
of Go `Match` that `arena.go` uses. -/
structure Match where
  Type_ : String
  Red1 : Int
  Red2 : Int
  Red3 : Int
  Blue1 : Int
  Blue2 : Int
  Blue3 : Int
  Status : String
deriving DecidableEq, Repr

/-- The errors `arena.go` can return, one constructor per `fmt.Errorf` site,
plus `external` for errors propagated from collaborators (team store,
connection construction and close). -/
inductive GoError where
  | invalidStation (station : String)
  | invalidTeam (id : Int)
  | cannotLoadMatch
  | cannotStartMatch
  | emergencyStopActive
  | robotNotReady
  | cannotAbort
  | cannotReset
  | external (msg : String)
deriving DecidableEq, Repr

/-- The arena state: the six-slot station map (total function on the six
keys), the match state, the cached can-start flag, the current match and the
two stored timestamps. -/
structure Arena where
  AllianceStations : StationId → AllianceStation
  MatchState : MatchState
  CanStartMatch : Bool
  currentMatch : Match
  matchStartTime : ℚ
  lastDsPacketTime : ℚ

/-- Replace one slot of the station map, leaving the other five unchanged
(the effect of a Go assignment through `arena.AllianceStations[station]`). -/
def Arena.setStation (arena : Arena) (st : StationId) (s : AllianceStation) : Arena :=
  { arena with AllianceStations := fun x => if x = st then s else arena.AllianceStations x }

/-- The per-station readiness test of `CheckCanStartMatch`:
`allianceStation.DsConn == nil || !allianceStation.DsConn.DriverStationStatus.RobotLinked`. -/
def robotNotLinked (s : AllianceStation) : Bool :=
  match s.DsConn with
  | none => true
  | some c => !c.DriverStationStatus.RobotLinked

/-- The body of the `for _, allianceStation := range arena.AllianceStations`
loop of `CheckCanStartMatch`, over an explicit iteration order: the first
station with `EmergencyStop` set yields the emergency-stop error, the first
non-bypassed station without a linked connection yields the not-ready error. -/
def checkStations (stations : StationId → AllianceStation) : List StationId → Option GoError
  | [] => none
  | st :: rest =>
    let s := stations st
    if s.EmergencyStop then some GoError.emergencyStopActive
    else if !s.Bypass && robotNotLinked s then some GoError.robotNotReady
    else checkStations stations rest

/-- `Arena.CheckCanStartMatch` of `arena.go`, with the Go map iteration order
(unspecified by Go) passed explicitly: fail unless in `PRE_MATCH`, then scan
the stations. -/
def Arena.CheckCanStartMatchOrd (arena : Arena) (order : List StationId) : Option GoError :=
  if arena.MatchState ≠ MatchState.PRE_MATCH then some GoError.cannotStartMatch
  else checkStations arena.AllianceStations order

/-- `Arena.CheckCanStartMatch` at the canonical iteration order.  Whether the
result is `none` does not depend on the order (see
`checkStations_eq_none_iff`), so this is the faithful boolean used by
`Update` and `StartMatch`. -/
def Arena.CheckCanStartMatch (arena : Arena) : Option GoError :=
  arena.CheckCanStartMatchOrd allStations

/-- A station passes the readiness scan iff its emergency stop is clear and,
unless bypassed, it has a linked connection. -/
def stationOk (s : AllianceStation) : Prop :=
  s.EmergencyStop = false ∧ (s.Bypass = false → robotNotLinked s = false)

instance (s : AllianceStation) : Decidable (stationOk s) := by
  unfold stationOk; infer_instance

/-- `Arena.MatchTimeSec`: zero in `PRE_MATCH`/`POST_MATCH`, otherwise seconds
since the stored match start time ("now" passed explicitly). -/
def Arena.MatchTimeSec (arena : Arena) (now : ℚ) : ℚ :=
  if arena.MatchState = MatchState.PRE_MATCH ∨ arena.MatchState = MatchState.POST_MATCH then 0
  else now - arena.matchStartTime

/-- The (auto, enabled) flag pair set on a connection just before its
`Update()` is invoked during `sendDsPacket`. -/
structure DsPacket where
  Auto : Bool
  Enabled : Bool
deriving DecidableEq, Repr

/-- The per-slot body of `sendDsPacket`: if the slot has a connection, set its
`Auto` and `Enabled` fields (`Enabled = enabled && !EmergencyStop && !Bypass`)
and record the pair the connection carries when its `Update()` is invoked. -/
def dispatchSlot (auto enabled : Bool) (s : AllianceStation) :
    AllianceStation × Option DsPacket :=
  match s.DsConn with
  | none => (s, none)
  | some c =>
    let en := enabled && !s.EmergencyStop && !s.Bypass
    ({ s with DsConn := some { c with Auto := auto, Enabled := en } },
     some { Auto := auto, Enabled := en })

/-- `Arena.sendDsPacket`: update every connected slot's flags, invoke each
connection's `Update()` (an external effect; the pair it carries is returned
per station), and record the dispatch time in `lastDsPacketTime`.  The Go
loop's map order is irrelevant because the slots are updated independently. -/
def Arena.sendDsPacket (arena : Arena) (now : ℚ) (auto enabled : Bool) :
    Arena × (StationId → Option DsPacket) :=
  ({ arena with
      AllianceStations := fun st => (dispatchSlot auto enabled (arena.AllianceStations st)).fst,
      lastDsPacketTime := now },
   fun st => (dispatchSlot auto enabled (arena.AllianceStations st)).snd)

/-- `Arena.StartMatch`: on a clean readiness check move to `START_MATCH`,
otherwise return the error unchanged. -/
def Arena.StartMatch (arena : Arena) : Arena × Option GoError :=
  match arena.CheckCanStartMatch with
  | none => ({ arena with MatchState := MatchState.START_MATCH }, none)
  | some e => (arena, some e)

/-- `Arena.AbortMatch`: fails in `PRE_MATCH`/`POST_MATCH`, otherwise forces
`POST_MATCH`. -/
def Arena.AbortMatch (arena : Arena) : Arena × Option GoError :=
  if arena.MatchState = MatchState.PRE_MATCH ∨ arena.MatchState = MatchState.POST_MATCH then
    (arena, some GoError.cannotAbort)
  else
    ({ arena with MatchState := MatchState.POST_MATCH }, none)

/-- `Arena.ResetMatch`: fails unless in `POST_MATCH` or `PRE_MATCH`;
otherwise sets `PRE_MATCH` and clears `Bypass` on each of the six stations
(one assignment per key, as in the Go source). -/
def Arena.ResetMatch (arena : Arena) : Arena × Option GoError :=
  if arena.MatchState ≠ MatchState.POST_MATCH ∧ arena.MatchState ≠ MatchState.PRE_MATCH then
    (arena, some GoError.cannotReset)
  else
    let a := { arena with MatchState := MatchState.PRE_MATCH }
    let a := a.setStation StationId.R1 { a.AllianceStations StationId.R1 with Bypass := false }
    let a := a.setStation StationId.R2 { a.AllianceStations StationId.R2 with Bypass := false }
    let a := a.setStation StationId.R3 { a.AllianceStations StationId.R3 with Bypass := false }
    let a := a.setStation StationId.B1 { a.AllianceStations StationId.B1 with Bypass := false }
    let a := a.setStation StationId.B2 { a.AllianceStations StationId.B2 with Bypass := false }
    let a := a.setStation StationId.B3 { a.AllianceStations StationId.B3 with Bypass := false }
    (a, none)

/-- `Arena.Update`: one tick at time `now`.  Refreshes the cached
`CanStartMatch` flag, evaluates the state-machine switch on the match time,
then dispatches a status packet if a transition requested one or the packet
cadence (`dsPacketPeriodMs`) has elapsed. -/
def Arena.Update (arena : Arena) (now : ℚ) : Arena :=
  let a := { arena with CanStartMatch := arena.CheckCanStartMatch = none }
  let matchTimeSec := a.MatchTimeSec now
  let step : Arena × Bool × Bool × Bool :=
    match a.MatchState with
    | MatchState.PRE_MATCH => (a, true, false, false)
    | MatchState.START_MATCH =>
      ({ a with MatchState := MatchState.AUTO_PERIOD, matchStartTime := now },
       true, true, true)
    | MatchState.AUTO_PERIOD =>
      if matchTimeSec ≥ autoDurationSec then
        ({ a with MatchState := MatchState.PAUSE_PERIOD }, false, false, true)
      else (a, true, true, false)
    | MatchState.PAUSE_PERIOD =>
      if matchTimeSec ≥ autoDurationSec + pauseDurationSec then
        ({ a with MatchState := MatchState.TELEOP_PERIOD }, false, true, true)
      else (a, false, false, false)
    | MatchState.TELEOP_PERIOD =>
      if matchTimeSec ≥ autoDurationSec + pauseDurationSec + teleopDurationSec - endgameTimeLeftSec then
        ({ a with MatchState := MatchState.ENDGAME_PERIOD }, false, true, false)
      else (a, false, true, false)
    | MatchState.ENDGAME_PERIOD =>
      if matchTimeSec ≥ autoDurationSec + pauseDurationSec + teleopDurationSec then
        ({ a with MatchState := MatchState.POST_MATCH }, false, false, true)
      else (a, false, true, false)
    | MatchState.POST_MATCH => (a, false, false, false)
  match step with
  | (a2, auto, enabled, send) =>
    if send || decide ((now - a.lastDsPacketTime) * 1000 ≥ dsPacketPeriodMs) then
      (a2.sendDsPacket now auto enabled).fst
    else a2

/-- The external collaborators of `AssignTeam`, none of which are part of
this repository's source: the team store (`db.GetTeamById`, returning a
possibly-nil team or an error), the connection factory
(`NewDriverStationConnection`, modelled from the spec as
`connection | error`), and a connection's `Close()` result (`some` = the
error it returned, `none` = success). -/
structure Env where
  GetTeamById : Int → Except String (Option Team)
  NewDriverStationConnection : Int → String → Except String DriverStationConnection
  Close : DriverStationConnection → Option String

/-- The tail of `AssignTeam` after the teardown of any previous connection:
return on team number 0, look the team up, bind it to the slot, then
construct and bind the connection.  On construction failure the Go multiple
assignment leaves `DsConn` nil while the team stays bound. -/
def assignTeamTail (env : Env) (arena : Arena) (teamId : Int) (st : StationId)
    (station : String) : Arena × Option GoError :=
  if teamId = 0 then (arena, none)
  else
    match env.GetTeamById teamId with
    | Except.error e => (arena, some (GoError.external e))
    | Except.ok none => (arena, some (GoError.invalidTeam teamId))
    | Except.ok (some team) =>
      let a2 := arena.setStation st { arena.AllianceStations st with team := some team }
      match env.NewDriverStationConnection team.Id station with
      | Except.error e =>
        (a2.setStation st { a2.AllianceStations st with DsConn := none },
         some (GoError.external e))
      | Except.ok conn =>
        (a2.setStation st { a2.AllianceStations st with DsConn := some conn }, none)

/-- `Arena.AssignTeam`: reject unknown station keys; no-op if the slot's
connection already belongs to `teamId`; otherwise close and clear any
existing connection (propagating a close error with no state change), then
run the assignment tail. -/
def Arena.AssignTeam (env : Env) (arena : Arena) (teamId : Int) (station : String) :
    Arena × Option GoError :=
  match stationOfString station with
  | none => (arena, some (GoError.invalidStation station))
  | some st =>
    match (arena.AllianceStations st).DsConn with
    | some c =>
      if c.TeamId = teamId then (arena, none)
      else
        match env.Close c with
        | some e => (arena, some (GoError.external e))
        | none =>
          let a1 := arena.setStation st
            { arena.AllianceStations st with team := none, DsConn := none }
          assignTeamTail env a1 teamId st station
    | none => assignTeamTail env arena teamId st station

/-- One step of the `LoadMatch` assignment chain: skip once an error has
occurred, otherwise assign the next station. -/
def loadStep (env : Env) (prev : Arena × Option GoError) (teamId : Int)
    (station : String) : Arena × Option GoError :=
  match prev with
  | (a, some e) => (a, some e)
  | (a, none) => Arena.AssignTeam env a teamId station

/-- `Arena.LoadMatch`: fails unless in `PRE_MATCH`; otherwise replaces the
current match and assigns the six stations in order R1,R2,R3,B1,B2,B3,
stopping at the first assignment error. -/
def Arena.LoadMatch (env : Env) (arena : Arena) (m : Match) : Arena × Option GoError :=
  if arena.MatchState ≠ MatchState.PRE_MATCH then (arena, some GoError.cannotLoadMatch)
  else
    let a0 := { arena with currentMatch := m }
    let r := Arena.AssignTeam env a0 m.Red1 "R1"
    let r := loadStep env r m.Red2 "R2"
    let r := loadStep env r m.Red3 "R3"
    let r := loadStep env r m.Blue1 "B1"
    let r := loadStep env r m.Blue2 "B2"
    let r := loadStep env r m.Blue3 "B3"
    r

/-- Shared fixture: a linked driver-station status. -/
def statusLinked : DriverStationStatus := { RobotLinked := true }

/-- Shared fixture: a linked connection for a given team number. -/
def connFor (tid : Int) : DriverStationConnection :=
  { TeamId := tid, Auto := false, Enabled := false, DriverStationStatus := statusLinked }

/-- Shared fixture: an empty alliance-station slot (the state `Setup` leaves
each slot in). -/
def slotEmpty : AllianceStation :=
  { DsConn := none, EmergencyStop := false, Bypass := false, team := none }

/-- Shared fixture: an empty slot with the emergency stop pressed. -/
def slotEStop : AllianceStation := { slotEmpty with EmergencyStop := true }

/-- Shared fixture: an empty, bypassed slot. -/
def slotBypassed : AllianceStation := { slotEmpty with Bypass := true }

/-- Shared fixture: a slot holding a linked connection and team `tid`. -/
def slotWithTeam (tid : Int) : AllianceStation :=
  { DsConn := some (connFor tid), EmergencyStop := false, Bypass := false,
    team := some { Id := tid } }

/-- Shared fixture: the synthetic test match (`LoadTestMatch` loads
`Match{Type: "test"}`, all other fields zero-valued). -/
def matchTest : Match :=
  { Type_ := "test", Red1 := 0, Red2 := 0, Red3 := 0, Blue1 := 0, Blue2 := 0, Blue3 := 0,
    Status := "" }

/-- Shared fixture: an arena with the given station map and match state,
zero timestamps and the test match current. -/
def mkArena (stations : StationId → AllianceStation) (ms : MatchState) : Arena :=
  { AllianceStations := stations, MatchState := ms, CanStartMatch := false,
    currentMatch := matchTest, matchStartTime := 0, lastDsPacketTime := 0 }

/-- The station map of the C4 counterexample: R1 is neither bypassed nor
connected (not ready), R2 has its emergency stop set, the rest are
bypassed. -/
def stationsC4 : StationId → AllianceStation
  | StationId.R1 => slotEmpty
  | StationId.R2 => slotEStop
  | _ => slotBypassed

/-- Fixture environment: every looked-up team exists, connection
construction always fails, close always succeeds. -/
def envConstructFail : Env :=
  { GetTeamById := fun id => Except.ok (some { Id := id }),
    NewDriverStationConnection := fun _ _ => Except.error "construct",
    Close := fun _ => none }

/-- Fixture environment: close always fails. -/
def envCloseFail : Env :=
  { GetTeamById := fun id => Except.ok (some { Id := id }),
    NewDriverStationConnection := fun _ _ => Except.error "construct",
    Close := fun _ => some "closefail" }

/-- The station scan returns no error iff every station in the iteration
order passes both per-station checks. -/
theorem checkStations_eq_none_iff (stations : StationId → AllianceStation)
    (l : List StationId) :
    checkStations stations l = none ↔ ∀ st ∈ l, stationOk (stations st) := by
  induction l with
  | nil => simp [checkStations]
  | cons st rest ih =>
    simp only [checkStations, List.mem_cons]
    by_cases hE : (stations st).EmergencyStop
    · simp [hE, stationOk]
    · simp only [Bool.not_eq_true] at hE
      simp only [hE, if_false, Bool.false_eq_true]
      by_cases hB : (!(stations st).Bypass && robotNotLinked (stations st)) = true
      · simp only [hB, if_true]
        constructor
        · intro h; cases h
        · intro h
          have := (h st (Or.inl rfl)).2
          simp only [Bool.and_eq_true, Bool.not_eq_true'] at hB
          have := this hB.1
          rw [this] at hB
          exact absurd hB.2 (by simp)
      · simp only [hB, Bool.false_eq_true, if_false]
        rw [ih]
        constructor
        · intro h
          intro x hx
          rcases hx with hx | hx
          · rw [hx]
            refine ⟨hE, ?_⟩
            intro hByp
            simp only [Bool.and_eq_true, Bool.not_eq_true'] at hB
            rcases Bool.eq_false_or_eq_true (robotNotLinked (stations st)) with hr | hr
            · exact absurd ⟨hByp, hr⟩ hB
            · exact hr
          · exact h x hx
        · intro h x hx
          exact h x (Or.inr hx)

/-- A slot has `robotNotLinked = false` exactly when it holds a connection
whose `RobotLinked` status is true. -/
theorem robotNotLinked_eq_false_iff (s : AllianceStation) :
    robotNotLinked s = false ↔
      ∃ c, s.DsConn = some c ∧ c.DriverStationStatus.RobotLinked = true := by
  rcases h : s.DsConn with _ | c <;> simp [robotNotLinked, h]

/-- Every station key is in the canonical order list. -/
theorem mem_allStations (s : StationId) : s ∈ allStations := by
  cases s <;> simp [allStations]

/-- C1: `CheckCanStartMatch` returns ok iff the state is `PRE_MATCH`, no
station has its emergency stop set, and every non-bypassed station has a
connection whose `RobotLinked` status is true; otherwise it returns an
error.  Stated for every iteration order of the six-key map. -/
theorem checkCanStartMatch_ok_iff (a : Arena) (order : List StationId)
    (hord : order.Perm allStations) :
    a.CheckCanStartMatchOrd order = none ↔
      (a.MatchState = MatchState.PRE_MATCH ∧
        ∀ s : StationId, (a.AllianceStations s).EmergencyStop = false ∧
          ((a.AllianceStations s).Bypass = false →
            ∃ c, (a.AllianceStations s).DsConn = some c ∧
              c.DriverStationStatus.RobotLinked = true)) := by
  unfold Arena.CheckCanStartMatchOrd
  by_cases hs : a.MatchState = MatchState.PRE_MATCH
  · rw [if_neg (by simp [hs])]
    rw [checkStations_eq_none_iff]
    constructor
    · intro h
      refine ⟨hs, fun s => ?_⟩
      have hok := h s (hord.mem_iff.mpr (mem_allStations s))
      unfold stationOk at hok
      exact ⟨hok.1, fun hb => (robotNotLinked_eq_false_iff _).mp (hok.2 hb)⟩
    · intro h st _
      obtain ⟨-, h⟩ := h
      unfold stationOk
      exact ⟨(h st).1, fun hb => (robotNotLinked_eq_false_iff _).mpr ((h st).2 hb)⟩
  · rw [if_pos (by simp [hs])]
    simp [hs]

/-- Witness for C1: a fully linked arena in `PRE_MATCH` passes the check. -/
theorem checkCanStartMatch_ok_iff_witness :
    (mkArena (fun _ => slotWithTeam 1) MatchState.PRE_MATCH).CheckCanStartMatchOrd
      allStations = none :=
  (checkCanStartMatch_ok_iff _ allStations (List.Perm.refl _)).mpr
    ⟨rfl, fun _ => ⟨rfl, fun _ => ⟨connFor 1, rfl, rfl⟩⟩⟩

/-- Counterexample for C4: with an emergency stop active at R2 but R1 (seen
first in iteration order) not ready, `CheckCanStartMatch` returns the
robot-not-ready error, not the emergency-stop error. -/
theorem checkCanStartMatch_estop_not_first_counterexample :
    (mkArena stationsC4 MatchState.PRE_MATCH).MatchState = MatchState.PRE_MATCH ∧
    ((mkArena stationsC4 MatchState.PRE_MATCH).AllianceStations StationId.R2).EmergencyStop
      = true ∧
    (mkArena stationsC4 MatchState.PRE_MATCH).CheckCanStartMatchOrd allStations
      = some GoError.robotNotReady ∧
    (mkArena stationsC4 MatchState.PRE_MATCH).CheckCanStartMatchOrd allStations
      ≠ some GoError.emergencyStopActive := by
  refine ⟨rfl, rfl, rfl, ?_⟩
  intro h
  simp only [Arena.CheckCanStartMatchOrd] at h
  revert h
  decide

/-- The second per-station check never fires when every non-bypassed station
is linked, so the first emergency-stopped station in the scan order yields
the emergency-stop error. -/
theorem checkStations_estop (stations : StationId → AllianceStation)
    (l : List StationId)
    (hready : ∀ s, (stations s).Bypass = false → robotNotLinked (stations s) = false)
    (s₀ : StationId) (hs₀ : s₀ ∈ l) (hstop : (stations s₀).EmergencyStop = true) :
    checkStations stations l = some GoError.emergencyStopActive := by
  induction l with
  | nil => cases hs₀
  | cons st rest ih =>
    simp only [checkStations]
    by_cases hE : (stations st).EmergencyStop
    · simp [hE]
    · have hcond : (!(stations st).Bypass && robotNotLinked (stations st)) = false := by
        rcases Bool.eq_false_or_eq_true (stations st).Bypass with hb | hb
        · simp [hb]
        · simp [hready st hb]
      simp only [Bool.not_eq_true] at hE
      simp only [hE, hcond, Bool.false_eq_true, if_false]
      cases List.mem_cons.mp hs₀ with
      | inl h => rw [h] at hstop; rw [hstop] at hE; cases hE
      | inr h => exact ih h

/-- C4 (amended): if any station has its emergency stop set, the readiness
check in `PRE_MATCH` always fails — regardless of bypass flags and of the
other slots' connections — and the error is specifically the emergency-stop
error whenever no robot-not-ready fault can fire first, i.e. when every
non-bypassed slot is linked (in particular, bypass never masks an emergency
stop).  Which of the two errors surfaces otherwise depends on the Go map
iteration order. -/
theorem checkCanStartMatch_estop_fails (a : Arena) (order : List StationId)
    (hord : order.Perm allStations)
    (hpre : a.MatchState = MatchState.PRE_MATCH)
    (s₀ : StationId) (hstop : (a.AllianceStations s₀).EmergencyStop = true) :
    a.CheckCanStartMatchOrd order ≠ none ∧
    ((∀ s : StationId, (a.AllianceStations s).Bypass = false →
        robotNotLinked (a.AllianceStations s) = false) →
      a.CheckCanStartMatchOrd order = some GoError.emergencyStopActive) := by
  unfold Arena.CheckCanStartMatchOrd
  rw [if_neg (by simp [hpre])]
  constructor
  · intro h
    rw [checkStations_eq_none_iff] at h
    have hok := h s₀ (hord.mem_iff.mpr (mem_allStations s₀))
    unfold stationOk at hok
    rw [hstop] at hok
    cases hok.1
  · intro hready
    exact checkStations_estop a.AllianceStations order hready s₀
      (hord.mem_iff.mpr (mem_allStations s₀)) hstop

/-- Witness for C4 (amended): an arena whose only fault is a bypassed,
emergency-stopped R1 yields the emergency-stop error. -/
theorem checkCanStartMatch_estop_fails_witness :
    (mkArena
        (fun s => match s with
          | StationId.R1 => { slotEStop with Bypass := true }
          | _ => slotBypassed)
        MatchState.PRE_MATCH).CheckCanStartMatchOrd allStations ≠ none ∧
    ((∀ s : StationId,
        ((mkArena
            (fun s => match s with
              | StationId.R1 => { slotEStop with Bypass := true }
              | _ => slotBypassed)
            MatchState.PRE_MATCH).AllianceStations s).Bypass = false →
        robotNotLinked
          ((mkArena
              (fun s => match s with
                | StationId.R1 => { slotEStop with Bypass := true }
                | _ => slotBypassed)
              MatchState.PRE_MATCH).AllianceStations s) = false) →
      (mkArena
          (fun s => match s with
            | StationId.R1 => { slotEStop with Bypass := true }
            | _ => slotBypassed)
          MatchState.PRE_MATCH).CheckCanStartMatchOrd allStations
        = some GoError.emergencyStopActive) :=
  checkCanStartMatch_estop_fails _ allStations (List.Perm.refl _) rfl StationId.R1 rfl

/-- C2: in every `sendDsPacket` dispatch, a station with a bound connection
whose emergency stop is set has its connection's `Enabled` flag forced to
false before the connection's `Update()` is invoked (the dispatched pair is
the flags the connection carries at that invocation), even when the global
period flag is `enabled = true`; the same forcing applies when the station
is bypassed. -/
theorem sendDsPacket_forces_disabled (a : Arena) (now : ℚ) (auto enabled : Bool)
    (s : StationId) (c : DriverStationConnection)
    (hc : (a.AllianceStations s).DsConn = some c)
    (h : (a.AllianceStations s).EmergencyStop = true ∨ (a.AllianceStations s).Bypass = true) :
    (a.sendDsPacket now auto enabled).snd s = some { Auto := auto, Enabled := false } ∧
    ((a.sendDsPacket now auto enabled).fst.AllianceStations s).DsConn =
      some { c with Auto := auto, Enabled := false } := by
  have hen : (enabled && !(a.AllianceStations s).EmergencyStop &&
      !(a.AllianceStations s).Bypass) = false := by
    rcases h with h | h <;> simp [h]
  constructor <;> simp [Arena.sendDsPacket, dispatchSlot, hc, hen]

/-- Witness for C2: an emergency-stopped R1 with a bound connection receives
`Enabled = false` even though the dispatch is made with `enabled = true`. -/
theorem sendDsPacket_forces_disabled_witness :
    ((mkArena (fun _ => { slotWithTeam 7 with EmergencyStop := true })
        MatchState.AUTO_PERIOD).sendDsPacket 0 false true).snd StationId.R1 =
      some { Auto := false, Enabled := false } ∧
    (((mkArena (fun _ => { slotWithTeam 7 with EmergencyStop := true })
        MatchState.AUTO_PERIOD).sendDsPacket 0 false true).fst.AllianceStations
          StationId.R1).DsConn =
      some { connFor 7 with Auto := false, Enabled := false } :=
  sendDsPacket_forces_disabled _ 0 false true StationId.R1 (connFor 7) rfl (Or.inl rfl)

/-- The match state after one `Update` tick, as a function of the previous
state and the elapsed time: `START_MATCH` always advances to `AUTO_PERIOD`,
the timed periods advance exactly when the elapsed time reaches 10, 11,
121 (= 10+1+140−30) and 151 (= 10+1+140) seconds, and the two idle states
never advance. -/
theorem update_matchState_eq (a : Arena) (now : ℚ) :
    (a.Update now).MatchState =
      match a.MatchState with
      | MatchState.PRE_MATCH => MatchState.PRE_MATCH
      | MatchState.START_MATCH => MatchState.AUTO_PERIOD
      | MatchState.AUTO_PERIOD =>
        if now - a.matchStartTime ≥ 10 then MatchState.PAUSE_PERIOD
        else MatchState.AUTO_PERIOD
      | MatchState.PAUSE_PERIOD =>
        if now - a.matchStartTime ≥ 11 then MatchState.TELEOP_PERIOD
        else MatchState.PAUSE_PERIOD
      | MatchState.TELEOP_PERIOD =>
        if now - a.matchStartTime ≥ 121 then MatchState.ENDGAME_PERIOD
        else MatchState.TELEOP_PERIOD
      | MatchState.ENDGAME_PERIOD =>
        if now - a.matchStartTime ≥ 151 then MatchState.POST_MATCH
        else MatchState.ENDGAME_PERIOD
      | MatchState.POST_MATCH => MatchState.POST_MATCH := by
  cases h : a.MatchState <;>
    simp only [Arena.Update, Arena.MatchTimeSec, Arena.sendDsPacket, h] <;>
    norm_num [autoDurationSec, pauseDurationSec, teleopDurationSec, endgameTimeLeftSec] <;>
    split_ifs <;>
    simp_all

/-- C3 (with durations auto = 10 s, pause = 1 s, teleop = 140 s, endgame
warning = 30 s): from a successful `StartMatch` (state `START_MATCH`),
repeated ticking passes through exactly `AUTO_PERIOD`, `PAUSE_PERIOD`,
`TELEOP_PERIOD`, `ENDGAME_PERIOD`, `POST_MATCH`: the first tick enters
`AUTO_PERIOD` and anchors the match start time, and each later period is
left at exactly the first tick whose elapsed match time reaches 10, 11, 121
and 151 seconds respectively (`matchTimeSec ≥` each threshold). -/
theorem update_period_sequence (a : Arena) (now : ℚ) :
    (a.MatchState = MatchState.START_MATCH →
      (a.Update now).MatchState = MatchState.AUTO_PERIOD ∧
      (a.Update now).matchStartTime = now) ∧
    (a.MatchState = MatchState.AUTO_PERIOD →
      (a.Update now).MatchState =
        (if now - a.matchStartTime ≥ 10 then MatchState.PAUSE_PERIOD
         else MatchState.AUTO_PERIOD)) ∧
    (a.MatchState = MatchState.PAUSE_PERIOD →
      (a.Update now).MatchState =
        (if now - a.matchStartTime ≥ 11 then MatchState.TELEOP_PERIOD
         else MatchState.PAUSE_PERIOD)) ∧
    (a.MatchState = MatchState.TELEOP_PERIOD →
      (a.Update now).MatchState =
        (if now - a.matchStartTime ≥ 121 then MatchState.ENDGAME_PERIOD
         else MatchState.TELEOP_PERIOD)) ∧
    (a.MatchState = MatchState.ENDGAME_PERIOD →
      (a.Update now).MatchState =
        (if now - a.matchStartTime ≥ 151 then MatchState.POST_MATCH
         else MatchState.ENDGAME_PERIOD)) := by
  refine ⟨fun h => ⟨?_, ?_⟩, fun h => ?_, fun h => ?_, fun h => ?_, fun h => ?_⟩
  · rw [update_matchState_eq, h]
  · simp only [Arena.Update, Arena.sendDsPacket, h]
    split <;> rfl
  all_goals rw [update_matchState_eq, h]

/-- Witness for C3: concrete ticks from each in-match state.  A
`START_MATCH` arena ticked at time 3 enters `AUTO_PERIOD` anchored at 3; an
`AUTO_PERIOD` arena anchored at 0 stays put at time 9 and advances at
time 10; and a `TELEOP_PERIOD` arena anchored at 0 advances at time 121. -/
theorem update_period_sequence_witness :
    (((mkArena (fun _ => slotEmpty) MatchState.START_MATCH).Update 3).MatchState =
        MatchState.AUTO_PERIOD ∧
      ((mkArena (fun _ => slotEmpty) MatchState.START_MATCH).Update 3).matchStartTime = 3) ∧
    ((mkArena (fun _ => slotEmpty) MatchState.AUTO_PERIOD).Update 9).MatchState =
      (if (9 : ℚ) - (mkArena (fun _ => slotEmpty) MatchState.AUTO_PERIOD).matchStartTime ≥ 10
       then MatchState.PAUSE_PERIOD else MatchState.AUTO_PERIOD) ∧
    ((mkArena (fun _ => slotEmpty) MatchState.AUTO_PERIOD).Update 10).MatchState =
      (if (10 : ℚ) - (mkArena (fun _ => slotEmpty) MatchState.AUTO_PERIOD).matchStartTime ≥ 10
       then MatchState.PAUSE_PERIOD else MatchState.AUTO_PERIOD) ∧
    ((mkArena (fun _ => slotEmpty) MatchState.TELEOP_PERIOD).Update 121).MatchState =
      (if (121 : ℚ) - (mkArena (fun _ => slotEmpty) MatchState.TELEOP_PERIOD).matchStartTime ≥ 121
       then MatchState.ENDGAME_PERIOD else MatchState.TELEOP_PERIOD) :=
  ⟨(update_period_sequence _ 3).1 rfl,
   (update_period_sequence _ 9).2.1 rfl,
   (update_period_sequence _ 10).2.1 rfl,
   (update_period_sequence _ 121).2.2.2.1 rfl⟩

/-- C10: one `Update` tick never changes the match state when it is
`PRE_MATCH` or `POST_MATCH`; those states are only left through the
external `StartMatch` / `ResetMatch` / `LoadMatch` calls. -/
theorem update_idle_states_stable (a : Arena) (now : ℚ)
    (h : a.MatchState = MatchState.PRE_MATCH ∨ a.MatchState = MatchState.POST_MATCH) :
    (a.Update now).MatchState = a.MatchState := by
  rw [update_matchState_eq]
  rcases h with h | h <;> rw [h]

/-- Witness for C10: a `POST_MATCH` arena ticked at time 1 stays in
`POST_MATCH`. -/
theorem update_idle_states_stable_witness :
    ((mkArena (fun _ => slotEmpty) MatchState.POST_MATCH).Update 1).MatchState =
      (mkArena (fun _ => slotEmpty) MatchState.POST_MATCH).MatchState :=
  update_idle_states_stable _ 1 (Or.inr rfl)

/-- The string key of each station parses back to that station. -/
theorem stationOfString_keyString (st : StationId) :
    stationOfString (keyString st) = some st := by
  cases st <;> rfl

/-- C7: `ResetMatch` from `POST_MATCH` (or `PRE_MATCH`) succeeds, sets the
state to `PRE_MATCH` and clears the bypass flag of all six stations while
leaving each station's emergency stop, team and connection — and the
current match and start time — unchanged; from any other state it fails
with the match-in-progress error and changes nothing. -/
theorem resetMatch_spec (a : Arena) :
    ((a.MatchState = MatchState.POST_MATCH ∨ a.MatchState = MatchState.PRE_MATCH) →
      (a.ResetMatch).snd = none ∧
      (a.ResetMatch).fst.MatchState = MatchState.PRE_MATCH ∧
      (∀ s, (a.ResetMatch).fst.AllianceStations s =
        { a.AllianceStations s with Bypass := false }) ∧
      (a.ResetMatch).fst.currentMatch = a.currentMatch ∧
      (a.ResetMatch).fst.matchStartTime = a.matchStartTime) ∧
    (a.MatchState ≠ MatchState.POST_MATCH ∧ a.MatchState ≠ MatchState.PRE_MATCH →
      a.ResetMatch = (a, some GoError.cannotReset)) := by
  constructor
  · intro h
    have hcond : ¬(a.MatchState ≠ MatchState.POST_MATCH ∧
        a.MatchState ≠ MatchState.PRE_MATCH) := by
      rcases h with h | h <;> simp [h]
    unfold Arena.ResetMatch
    rw [if_neg hcond]
    refine ⟨rfl, rfl, fun s => ?_, rfl, rfl⟩
    cases s <;> rfl
  · intro h
    unfold Arena.ResetMatch
    rw [if_pos h]

/-- Witness for C7: resetting a bypassed-everywhere `POST_MATCH` arena
succeeds, returns to `PRE_MATCH` and clears R1's bypass flag. -/
theorem resetMatch_spec_witness :
    ((mkArena (fun _ => slotBypassed) MatchState.POST_MATCH).ResetMatch).snd = none ∧
    ((mkArena (fun _ => slotBypassed) MatchState.POST_MATCH).ResetMatch).fst.MatchState =
      MatchState.PRE_MATCH ∧
    ((mkArena (fun _ => slotBypassed) MatchState.POST_MATCH).ResetMatch).fst.AllianceStations
        StationId.R1 =
      { (mkArena (fun _ => slotBypassed) MatchState.POST_MATCH).AllianceStations StationId.R1
        with Bypass := false } :=
  ⟨((resetMatch_spec _).1 (Or.inl rfl)).1,
   ((resetMatch_spec _).1 (Or.inl rfl)).2.1,
   ((resetMatch_spec _).1 (Or.inl rfl)).2.2.1 StationId.R1⟩

/-- The assignment tail never touches the current match. -/
theorem assignTeamTail_currentMatch (env : Env) (a : Arena) (teamId : Int)
    (st : StationId) (station : String) :
    (assignTeamTail env a teamId st station).fst.currentMatch = a.currentMatch := by
  unfold assignTeamTail
  by_cases h0 : teamId = 0
  · rw [if_pos h0]
  · rw [if_neg h0]
    rcases hg : env.GetTeamById teamId with e | t
    · simp only [hg]
    · rcases t with _ | team
      · simp only [hg]
      · simp only [hg]
        rcases hn : env.NewDriverStationConnection team.Id station with e | conn <;>
          simp only [hn] <;> rfl

/-- `AssignTeam` never touches the current match. -/
theorem assignTeam_currentMatch (env : Env) (a : Arena) (teamId : Int) (station : String) :
    (Arena.AssignTeam env a teamId station).fst.currentMatch = a.currentMatch := by
  unfold Arena.AssignTeam
  rcases hs : stationOfString station with _ | st
  · simp only [hs]
  · simp only [hs]
    rcases hc : (a.AllianceStations st).DsConn with _ | c <;> simp only [hc]
    · exact assignTeamTail_currentMatch env a teamId st station
    · by_cases hteq : c.TeamId = teamId
      · rw [if_pos hteq]
      · rw [if_neg hteq]
        rcases hcl : env.Close c with _ | e <;> simp only [hcl]
        exact assignTeamTail_currentMatch env _ teamId st station

/-- A `loadStep` never touches the current match. -/
theorem loadStep_currentMatch (env : Env) (r : Arena × Option GoError) (teamId : Int)
    (station : String) :
    (loadStep env r teamId station).fst.currentMatch = r.fst.currentMatch := by
  rcases r with ⟨ar, e⟩
  cases e
  · simpa [loadStep] using assignTeam_currentMatch env ar teamId station
  · rfl

/-- Counterexample for C6: from `POST_MATCH`, `LoadMatch` does not proceed —
it fails with the match-in-progress error and leaves the arena unchanged. -/
theorem loadMatch_postMatch_counterexample :
    (mkArena (fun _ => slotEmpty) MatchState.POST_MATCH).MatchState =
      MatchState.POST_MATCH ∧
    Arena.LoadMatch envConstructFail (mkArena (fun _ => slotEmpty) MatchState.POST_MATCH)
        matchTest =
      (mkArena (fun _ => slotEmpty) MatchState.POST_MATCH, some GoError.cannotLoadMatch) :=
  ⟨rfl, rfl⟩

/-- C6 (amended): `LoadMatch` is permitted exactly when the state is
`PRE_MATCH`.  From every other state — including `POST_MATCH` — it fails
with the match-in-progress error and leaves the arena, in particular the
current match, unchanged; from `PRE_MATCH` it proceeds and replaces the
current match (even if a later station assignment fails). -/
theorem loadMatch_only_preMatch (env : Env) (a : Arena) (m : Match) :
    (a.MatchState ≠ MatchState.PRE_MATCH →
      a.LoadMatch env m = (a, some GoError.cannotLoadMatch)) ∧
    (a.MatchState = MatchState.PRE_MATCH →
      ((a.LoadMatch env m).fst).currentMatch = m) := by
  constructor
  · intro h
    unfold Arena.LoadMatch
    rw [if_pos h]
  · intro h
    unfold Arena.LoadMatch
    rw [if_neg (by simp [h])]
    simp only [loadStep_currentMatch, assignTeam_currentMatch]

/-- Witness for C6 (amended): from `POST_MATCH` loading fails and changes
nothing; from `PRE_MATCH` the test match becomes current. -/
theorem loadMatch_only_preMatch_witness :
    Arena.LoadMatch envConstructFail (mkArena (fun _ => slotEmpty) MatchState.POST_MATCH)
        matchTest =
      (mkArena (fun _ => slotEmpty) MatchState.POST_MATCH, some GoError.cannotLoadMatch) ∧
    ((Arena.LoadMatch envConstructFail (mkArena (fun _ => slotEmpty) MatchState.PRE_MATCH)
        matchTest).fst).currentMatch = matchTest :=
  ⟨(loadMatch_only_preMatch envConstructFail _ matchTest).1 (by decide),
   (loadMatch_only_preMatch envConstructFail _ matchTest).2 rfl⟩

/-- C9: if `AssignTeam` must tear down an existing connection for a
different team and its `Close()` fails, the error is returned and the arena
— team and connection bindings included — is left exactly as it was. -/
theorem assignTeam_close_error (env : Env) (a : Arena) (teamId : Int) (station : String)
    (st : StationId) (c : DriverStationConnection) (e : String)
    (hs : stationOfString station = some st)
    (hc : (a.AllianceStations st).DsConn = some c)
    (hne : c.TeamId ≠ teamId)
    (hcl : env.Close c = some e) :
    Arena.AssignTeam env a teamId station = (a, some (GoError.external e)) := by
  unfold Arena.AssignTeam
  simp only [hs, hc]
  rw [if_neg hne]
  simp only [hcl]

/-- Witness for C9: closing team 5's connection fails while assigning team 6
to R1, so the call errors out with the slot untouched. -/
theorem assignTeam_close_error_witness :
    Arena.AssignTeam envCloseFail (mkArena (fun _ => slotWithTeam 5) MatchState.PRE_MATCH)
        6 "R1" =
      (mkArena (fun _ => slotWithTeam 5) MatchState.PRE_MATCH,
       some (GoError.external "closefail")) :=
  assignTeam_close_error envCloseFail _ 6 "R1" StationId.R1 (connFor 5) "closefail"
    rfl rfl (by decide) rfl

/-- Counterexample for C5: with every team known and construction failing,
assigning team 5 to the empty slot R1 returns the construction error but
does not leave the slot empty — the team stays bound (no connection is
bound). -/
theorem assignTeam_construct_error_counterexample :
    (Arena.AssignTeam envConstructFail (mkArena (fun _ => slotEmpty) MatchState.PRE_MATCH)
        5 "R1").snd = some (GoError.external "construct") ∧
    ((Arena.AssignTeam envConstructFail (mkArena (fun _ => slotEmpty) MatchState.PRE_MATCH)
        5 "R1").fst.AllianceStations StationId.R1).team = some { Id := 5 } ∧
    ((Arena.AssignTeam envConstructFail (mkArena (fun _ => slotEmpty) MatchState.PRE_MATCH)
        5 "R1").fst.AllianceStations StationId.R1).DsConn = none :=
  ⟨rfl, rfl, rfl⟩

/-- In the assignment tail, a construction failure surfaces as the error
while the slot keeps the freshly bound team and no connection. -/
theorem assignTeamTail_construct_error (env : Env) (a : Arena) (teamId : Int)
    (st : StationId) (team : Team) (e : String)
    (h0 : teamId ≠ 0)
    (hlook : env.GetTeamById teamId = Except.ok (some team))
    (hfac : env.NewDriverStationConnection team.Id (keyString st) = Except.error e) :
    (assignTeamTail env a teamId st (keyString st)).snd = some (GoError.external e) ∧
    ((assignTeamTail env a teamId st (keyString st)).fst.AllianceStations st).team =
      some team ∧
    ((assignTeamTail env a teamId st (keyString st)).fst.AllianceStations st).DsConn =
      none := by
  unfold assignTeamTail
  rw [if_neg h0]
  simp only [hlook, hfac]
  refine ⟨trivial, ?_, ?_⟩ <;> simp [Arena.setStation]

/-- C5 (amended): whenever `AssignTeam` reaches connection construction and
it fails — the slot being initially connection-free, or holding a different
team's connection that closes cleanly — the error is returned and the slot
is left half-bound: no connection, but the looked-up team bound. -/
theorem assignTeam_construct_error (env : Env) (a : Arena) (teamId : Int)
    (st : StationId) (team : Team) (e : String)
    (h0 : teamId ≠ 0)
    (hpath : (a.AllianceStations st).DsConn = none ∨
      ∃ c, (a.AllianceStations st).DsConn = some c ∧ c.TeamId ≠ teamId ∧
        env.Close c = none)
    (hlook : env.GetTeamById teamId = Except.ok (some team))
    (hfac : env.NewDriverStationConnection team.Id (keyString st) = Except.error e) :
    (Arena.AssignTeam env a teamId (keyString st)).snd = some (GoError.external e) ∧
    ((Arena.AssignTeam env a teamId (keyString st)).fst.AllianceStations st).team =
      some team ∧
    ((Arena.AssignTeam env a teamId (keyString st)).fst.AllianceStations st).DsConn =
      none := by
  unfold Arena.AssignTeam
  simp only [stationOfString_keyString]
  rcases hpath with hnone | ⟨c, hc, hne, hcl⟩
  · simp only [hnone]
    exact assignTeamTail_construct_error env a teamId st team e h0 hlook hfac
  · simp only [hc]
    rw [if_neg hne]
    simp only [hcl]
    exact assignTeamTail_construct_error env _ teamId st team e h0 hlook hfac

/-- Witness for C5 (amended): the counterexample scenario, reached through
the amended theorem. -/
theorem assignTeam_construct_error_witness :
    (Arena.AssignTeam envConstructFail (mkArena (fun _ => slotEmpty) MatchState.PRE_MATCH)
        5 (keyString StationId.R1)).snd = some (GoError.external "construct") ∧
    ((Arena.AssignTeam envConstructFail (mkArena (fun _ => slotEmpty) MatchState.PRE_MATCH)
        5 (keyString StationId.R1)).fst.AllianceStations StationId.R1).team =
      some { Id := 5 } ∧
    ((Arena.AssignTeam envConstructFail (mkArena (fun _ => slotEmpty) MatchState.PRE_MATCH)
        5 (keyString StationId.R1)).fst.AllianceStations StationId.R1).DsConn = none :=
  assignTeam_construct_error envConstructFail _ 5 StationId.R1 { Id := 5 } "construct"
    (by decide) (Or.inl rfl) rfl rfl

/-- Counterexample for C8: three reachable situations where "AssignTeam with
team number 0 succeeds, empties the slot and tears down any existing
connection" fails on the code: a connection whose close errors makes the
call fail; a team bound without a connection is not cleared on success; and
a connection recorded for team 0 is kept, not torn down. -/
theorem assignTeamZero_counterexample :
    (Arena.AssignTeam envCloseFail (mkArena (fun _ => slotWithTeam 5) MatchState.PRE_MATCH)
        0 "R1").snd = some (GoError.external "closefail") ∧
    ((Arena.AssignTeam envConstructFail
        (mkArena (fun _ => { slotEmpty with team := some { Id := 7 } })
          MatchState.PRE_MATCH) 0 "R1").snd = none ∧
      ((Arena.AssignTeam envConstructFail
          (mkArena (fun _ => { slotEmpty with team := some { Id := 7 } })
            MatchState.PRE_MATCH) 0 "R1").fst.AllianceStations StationId.R1).team =
        some { Id := 7 }) ∧
    ((Arena.AssignTeam envConstructFail (mkArena (fun _ => slotWithTeam 0)
        MatchState.PRE_MATCH) 0 "R1").fst.AllianceStations StationId.R1).DsConn =
      some (connFor 0) :=
  ⟨rfl, ⟨rfl, rfl⟩, rfl⟩

/-- C8 (amended): for every station key, if the slot's connection (when one
exists) is not recorded for team 0 and closes cleanly, `AssignTeam` with
team number 0 succeeds and leaves the slot with no connection; the team is
cleared when a connection was torn down, while a slot with no connection is
left entirely as it was (a team bound without a connection is not cleared).
Other slots are untouched, and the operation is idempotent: a second call
succeeds and changes nothing. -/
theorem assignTeamZero_empties (env : Env) (a : Arena) (st : StationId)
    (hconn : ∀ c, (a.AllianceStations st).DsConn = some c →
      c.TeamId ≠ 0 ∧ env.Close c = none) :
    (Arena.AssignTeam env a 0 (keyString st)).snd = none ∧
    ((Arena.AssignTeam env a 0 (keyString st)).fst.AllianceStations st).DsConn = none ∧
    ((a.AllianceStations st).DsConn = none →
      (Arena.AssignTeam env a 0 (keyString st)).fst = a) ∧
    (∀ c, (a.AllianceStations st).DsConn = some c →
      ((Arena.AssignTeam env a 0 (keyString st)).fst.AllianceStations st).team = none) ∧
    (∀ s, s ≠ st →
      (Arena.AssignTeam env a 0 (keyString st)).fst.AllianceStations s =
        a.AllianceStations s) ∧
    Arena.AssignTeam env ((Arena.AssignTeam env a 0 (keyString st)).fst) 0 (keyString st) =
      ((Arena.AssignTeam env a 0 (keyString st)).fst, none) := by
  rcases hcase : (a.AllianceStations st).DsConn with _ | c
  · have hres : Arena.AssignTeam env a 0 (keyString st) = (a, none) := by
      unfold Arena.AssignTeam
      simp only [stationOfString_keyString, hcase]
      unfold assignTeamTail
      simp
    rw [hres]
    exact ⟨rfl, hcase, fun _ => rfl,
      fun c hc => Option.noConfusion hc,
      fun s _ => rfl, hres⟩
  · obtain ⟨hne, hcl⟩ := hconn c hcase
    have hres : Arena.AssignTeam env a 0 (keyString st) =
        (a.setStation st { a.AllianceStations st with team := none, DsConn := none },
         none) := by
      unfold Arena.AssignTeam
      simp only [stationOfString_keyString, hcase]
      rw [if_neg hne]
      simp only [hcl]
      unfold assignTeamTail
      simp
    rw [hres]
    have hslot : ((a.setStation st
        { a.AllianceStations st with team := none, DsConn := none }).AllianceStations st) =
        { a.AllianceStations st with team := none, DsConn := none } := by
      simp [Arena.setStation]
    refine ⟨rfl, ?_, ?_, ?_, ?_, ?_⟩
    · rw [hslot]
    · intro h0; exact Option.noConfusion h0
    · intro c' _; rw [hslot]
    · intro s hsne; simp [Arena.setStation, hsne]
    · have h1 : ((a.setStation st
          { a.AllianceStations st with team := none, DsConn := none }).AllianceStations
            st).DsConn = none := by rw [hslot]
      unfold Arena.AssignTeam
      simp only [stationOfString_keyString, h1]
      unfold assignTeamTail
      simp

/-- Witness for C8 (amended): assigning team 0 over team 5's cleanly closing
connection at R1 succeeds and leaves the slot with no connection. -/
theorem assignTeamZero_empties_witness :
    (Arena.AssignTeam envConstructFail (mkArena (fun _ => slotWithTeam 5)
        MatchState.PRE_MATCH) 0 (keyString StationId.R1)).snd = none ∧
    ((Arena.AssignTeam envConstructFail (mkArena (fun _ => slotWithTeam 5)
        MatchState.PRE_MATCH) 0 (keyString StationId.R1)).fst.AllianceStations
          StationId.R1).DsConn = none :=
  ⟨(assignTeamZero_empties envConstructFail _ StationId.R1
      (fun c hc => by cases hc; exact ⟨by decide, rfl⟩)).1,
   (assignTeamZero_empties envConstructFail _ StationId.R1
      (fun c hc => by cases hc; exact ⟨by decide, rfl⟩)).2.1⟩
